import Mathlib

/-
Verification of the acpi-tables core (src/acpi-tables/src/lib.rs).

Bytes are modelled as `Nat` with wraparound arithmetic written explicitly
as `% 256`; multi-byte fields are serialized little-endian by explicit
division/modulus. Structures mirror the Rust `#[repr(C, packed)]` records
field for field, and serialization (`asBytes`) emits the fields in
declaration order with no padding, as `zerocopy::IntoBytes` does for a
packed struct of byte arrays and little-endian integers.
-/

namespace AcpiTables

/-- Wrapping 8-bit addition, the embedding of `u8::wrapping_add`. -/
def wrappingAdd (a b : Nat) : Nat := (a + b) % 256

/-- Wrapping 8-bit negation, the embedding of `u8::wrapping_neg`. -/
def wrappingNeg (a : Nat) : Nat := (256 - a % 256) % 256

/-- Running 8-bit wraparound sum over a byte sequence: the embedding of
`buf.iter().flat_map(|slice| slice.iter().copied()).fold(0u8, u8::wrapping_add)`
applied to the flattened fragment list. -/
def sum8 (bs : List Nat) : Nat := bs.foldl wrappingAdd 0

/-- Embedding of `checksum` (src/acpi-tables/src/lib.rs lines 41-47):
fold the wrapping 8-bit sum over every byte of every fragment in order,
then return its wrapping negation. -/
def checksum (buf : List (List Nat)) : Nat := wrappingNeg (sum8 buf.flatten)

/-- Creator ID constant `FC_ACPI_CREATOR_ID = *b"FCAT"` (bytes of "FCAT"). -/
def FC_ACPI_CREATOR_ID : Fin 4 → Nat := ![70, 67, 65, 84]

/-- Creator revision constant `FC_ACPI_CREATOR_REVISION = 0x20240119`. -/
def FC_ACPI_CREATOR_REVISION : Nat := 0x20240119

/-- Little-endian serialization of a 32-bit value (zerocopy `little_endian::U32`). -/
def u32LE (x : Nat) : List Nat :=
  [x % 256, x / 2 ^ 8 % 256, x / 2 ^ 16 % 256, x / 2 ^ 24 % 256]

/-- Little-endian serialization of a 64-bit value (zerocopy `little_endian::U64`). -/
def u64LE (x : Nat) : List Nat :=
  [x % 256, x / 2 ^ 8 % 256, x / 2 ^ 16 % 256, x / 2 ^ 24 % 256,
   x / 2 ^ 32 % 256, x / 2 ^ 40 % 256, x / 2 ^ 48 % 256, x / 2 ^ 56 % 256]

/-- Value denoted by a little-endian byte list (used to state that the
serializers are little-endian: decoding recovers the value mod 2^width). -/
def leValue (bs : List Nat) : Nat := bs.foldr (fun b acc => b % 256 + 256 * acc) 0

/-- Embedding of `GenericAddressStructure` (lines 77-90): four byte fields
followed by a 64-bit little-endian address. -/
structure GenericAddressStructure where
  address_space_id : Nat
  register_bit_width : Nat
  register_bit_offset : Nat
  access_size : Nat
  address : Nat

/-- Embedding of `GenericAddressStructure::new` (lines 93-107). -/
def GenericAddressStructure.new (address_space_id register_bit_width
    register_bit_offset access_size address : Nat) : GenericAddressStructure :=
  { address_space_id := address_space_id, register_bit_width := register_bit_width,
    register_bit_offset := register_bit_offset, access_size := access_size,
    address := address }

/-- Serialized byte image of a `GenericAddressStructure`: `#[repr(C, packed)]`
field order, no padding, address little-endian. -/
def GenericAddressStructure.asBytes (g : GenericAddressStructure) : List Nat :=
  [g.address_space_id % 256, g.register_bit_width % 256,
   g.register_bit_offset % 256, g.access_size % 256] ++ u64LE g.address

/-- Derived `Default` value of `GenericAddressStructure`: every field zero. -/
def GenericAddressStructure.default : GenericAddressStructure :=
  { address_space_id := 0, register_bit_width := 0, register_bit_offset := 0,
    access_size := 0, address := 0 }

/-- Embedding of `SdtHeader` (lines 121-142): the common 36-byte ACPI table
header. Fixed-size byte arrays are functions out of `Fin n`. -/
structure SdtHeader where
  signature : Fin 4 → Nat
  length : Nat
  revision : Nat
  checksum : Nat
  oem_id : Fin 6 → Nat
  oem_table_id : Fin 8 → Nat
  oem_revision : Nat
  creator_id : Fin 4 → Nat
  creator_revision : Nat

/-- Embedding of `SdtHeader::new` (lines 144-165): stores the caller's
arguments verbatim, zeroes the checksum and stamps the fixed creator
constants. -/
def SdtHeader.new (signature : Fin 4 → Nat) (length : Nat) (table_revision : Nat)
    (oem_id : Fin 6 → Nat) (oem_table_id : Fin 8 → Nat) (oem_revision : Nat) :
    SdtHeader :=
  { signature := signature, length := length, revision := table_revision,
    checksum := 0, oem_id := oem_id, oem_table_id := oem_table_id,
    oem_revision := oem_revision, creator_id := FC_ACPI_CREATOR_ID,
    creator_revision := FC_ACPI_CREATOR_REVISION }

/-- Serialized byte image of an `SdtHeader`: `#[repr(C, packed)]` field order,
no padding, multi-byte numeric fields little-endian. -/
def SdtHeader.asBytes (h : SdtHeader) : List Nat :=
  (List.ofFn fun i => h.signature i % 256) ++ u32LE h.length ++
  [h.revision % 256, h.checksum % 256] ++
  (List.ofFn fun i => h.oem_id i % 256) ++
  (List.ofFn fun i => h.oem_table_id i % 256) ++
  u32LE h.oem_revision ++
  (List.ofFn fun i => h.creator_id i % 256) ++
  u32LE h.creator_revision

/-- Derived `Default` value of `SdtHeader`: every field zero. -/
def SdtHeader.default : SdtHeader :=
  { signature := fun _ => 0, length := 0, revision := 0, checksum := 0,
    oem_id := fun _ => 0, oem_table_id := fun _ => 0, oem_revision := 0,
    creator_id := fun _ => 0, creator_revision := 0 }

/-- Embedding of `AcpiError` (lines 49-57). The external
`vm_memory::GuestMemoryError` is an opaque collaborator type, so the error is
parametrized by it; `GuestMemory` wraps and carries the underlying fault. -/
inductive AcpiError (ε : Type) where
  | GuestMemory : ε → AcpiError ε
  | InvalidGuestAddress : AcpiError ε
  | InvalidRegisterSize : AcpiError ε
deriving DecidableEq

/-- Embedding of the crate's `Result<T>` alias (line 60): every fallible
operation returns this typed result. -/
def Result (ε T : Type) : Type := Except (AcpiError ε) T

/-- Embedding of the `Sdt` trait (lines 174-196) as a record of its
operations over a table type τ, a guest-memory type μ and a guest-memory
error type ε. `write_to_guest` takes the table, the memory and a guest
address and returns the crate's typed result. -/
structure Sdt (τ μ ε : Type) where
  len : τ → Nat
  write_to_guest : τ → μ → Nat → Result ε Unit

/-- Embedding of the provided default method `Sdt::is_empty` (lines 183-185):
`self.len() == 0`. -/
def Sdt.is_empty (s : Sdt τ μ ε) (t : τ) : Bool := s.len t == 0

/- Helper lemmas about the wrapping sum. -/

/-- Helper: folding the wrapping addition keeps the accumulator below 256. -/
theorem foldl_wrappingAdd_lt (bs : List Nat) :
    ∀ a : Nat, a < 256 → bs.foldl wrappingAdd a < 256 := by
  induction bs with
  | nil => intro a ha; simpa using ha
  | cons b bs ih =>
      intro a _
      simp only [List.foldl_cons]
      exact ih _ (Nat.mod_lt _ (by norm_num))

/-- Helper: the running wrapping sum is always below 256. -/
theorem sum8_lt (bs : List Nat) : sum8 bs < 256 :=
  foldl_wrappingAdd_lt bs 0 (by norm_num)

/-- Helper: folding the wrapping addition from a reduced accumulator computes
the plain sum modulo 256. -/
theorem foldl_wrappingAdd_eq_sum (bs : List Nat) :
    ∀ a : Nat, a < 256 → bs.foldl wrappingAdd a = (a + bs.sum) % 256 := by
  induction bs with
  | nil =>
      intro a ha
      simp [Nat.mod_eq_of_lt ha]
  | cons b bs ih =>
      intro a _
      simp only [List.foldl_cons, List.sum_cons]
      rw [ih (wrappingAdd a b) (Nat.mod_lt _ (by norm_num))]
      unfold wrappingAdd
      omega

/-- Helper: the running wrapping sum equals the plain sum modulo 256. -/
theorem sum8_eq_sum_mod (bs : List Nat) : sum8 bs = bs.sum % 256 := by
  unfold sum8
  simpa using foldl_wrappingAdd_eq_sum bs 0 (by norm_num)

/-- C1: for every list F of byte fragments, the 8-bit wraparound sum of all
bytes of the concatenation of F, followed by checksum(F), is 0 modulo 256;
and checksum(F) is the wraparound negation of the running 8-bit wraparound
sum over every byte of every fragment in order. -/
theorem checksum_sums_to_zero (F : List (List Nat)) :
    sum8 (F.flatten ++ [checksum F]) = 0 ∧
    checksum F = wrappingNeg (F.flatten.foldl wrappingAdd 0) := by
  constructor
  · have hs : sum8 F.flatten < 256 := sum8_lt F.flatten
    have h1 : sum8 (F.flatten ++ [checksum F])
        = wrappingAdd (sum8 F.flatten) (checksum F) := by
      unfold sum8
      rw [List.foldl_append]
      rfl
    rw [h1]
    unfold checksum wrappingNeg wrappingAdd
    omega
  · rfl

/-- C2: checksum is invariant to how a fixed logical byte sequence is
partitioned into fragments: splitting at any point k gives the same result,
and any fragment list gives the same result as its one-slice concatenation. -/
theorem checksum_partition_invariant :
    (∀ (bs : List Nat) (k : Nat),
      checksum [bs] = checksum [bs.take k, bs.drop k]) ∧
    (∀ F : List (List Nat), checksum F = checksum [F.flatten]) := by
  constructor
  · intro bs k
    simp [checksum, List.take_append_drop]
  · intro F
    simp [checksum]

/-- C3: the encoded byte length of a GenericAddressStructure is exactly 12
and that of an SdtHeader is exactly 36, for all field values; the multi-byte
serializers are little-endian: decoding the emitted bytes as a little-endian
number recovers the field value modulo the field width. -/
theorem encoded_sizes_and_little_endian
    (g : GenericAddressStructure) (h : SdtHeader) :
    g.asBytes.length = 12 ∧ h.asBytes.length = 36 ∧
    (∀ x : Nat, leValue (u32LE x) = x % 2 ^ 32) ∧
    (∀ x : Nat, leValue (u64LE x) = x % 2 ^ 64) := by
  refine ⟨?_, ?_, ?_, ?_⟩
  · simp [GenericAddressStructure.asBytes, u64LE]
  · simp [SdtHeader.asBytes, u32LE]
  · intro x
    simp only [leValue, u32LE, List.foldr_cons, List.foldr_nil]
    norm_num
    omega
  · intro x
    simp only [leValue, u64LE, List.foldr_cons, List.foldr_nil]
    norm_num
    omega

/-- C4: for every choice of constructor arguments, the header produced by
SdtHeader.new has creator_id and creator_revision equal to the fixed creator
constants of the crate; the arguments never influence those fields. -/
theorem new_creator_constants (signature : Fin 4 → Nat)
    (length table_revision : Nat) (oem_id : Fin 6 → Nat)
    (oem_table_id : Fin 8 → Nat) (oem_revision : Nat) :
    (SdtHeader.new signature length table_revision oem_id oem_table_id
      oem_revision).creator_id = FC_ACPI_CREATOR_ID ∧
    (SdtHeader.new signature length table_revision oem_id oem_table_id
      oem_revision).creator_revision = FC_ACPI_CREATOR_REVISION :=
  ⟨rfl, rfl⟩

/-- C5: for every choice of constructor arguments, SdtHeader.new sets the
checksum field to zero and stores the caller-supplied signature, length,
revision, oem_id, oem_table_id and oem_revision verbatim; being a total
function, the constructor accepts any scalar inputs and never fails. -/
theorem new_verbatim_fields (signature : Fin 4 → Nat)
    (length table_revision : Nat) (oem_id : Fin 6 → Nat)
    (oem_table_id : Fin 8 → Nat) (oem_revision : Nat) :
    (SdtHeader.new signature length table_revision oem_id oem_table_id
      oem_revision).checksum = 0 ∧
    (SdtHeader.new signature length table_revision oem_id oem_table_id
      oem_revision).signature = signature ∧
    (SdtHeader.new signature length table_revision oem_id oem_table_id
      oem_revision).length = length ∧
    (SdtHeader.new signature length table_revision oem_id oem_table_id
      oem_revision).revision = table_revision ∧
    (SdtHeader.new signature length table_revision oem_id oem_table_id
      oem_revision).oem_id = oem_id ∧
    (SdtHeader.new signature length table_revision oem_id oem_table_id
      oem_revision).oem_table_id = oem_table_id ∧
    (SdtHeader.new signature length table_revision oem_id oem_table_id
      oem_revision).oem_revision = oem_revision :=
  ⟨rfl, rfl, rfl, rfl, rfl, rfl, rfl⟩

/-- C6: the error type has exactly three states and no others: a
memory-access failure wrapping the underlying guest-memory fault as its
cause, an invalid-guest-address error, and an invalid-register-size error;
the crate's Result is the typed result over this error. -/
theorem acpiError_three_states (ε : Type) (e : AcpiError ε) :
    ((∃ c : ε, e = AcpiError.GuestMemory c) ∨
      e = AcpiError.InvalidGuestAddress ∨ e = AcpiError.InvalidRegisterSize) ∧
    (∀ T : Type, Result ε T = Except (AcpiError ε) T) := by
  constructor
  · cases e with
    | GuestMemory c => exact Or.inl ⟨c, rfl⟩
    | InvalidGuestAddress => exact Or.inr (Or.inl rfl)
    | InvalidRegisterSize => exact Or.inr (Or.inr rfl)
  · intro T
    rfl

/-- C7: the concrete literal checksum scenarios of the test suite hold, and
the checksum of no fragments, or of any number of empty fragments, is 0. -/
theorem checksum_literal_scenarios :
    checksum [[]] = 0 ∧ checksum [] = 0 ∧ checksum [[1, 2, 3]] = 250 ∧
    checksum [[1, 2, 3], []] = 250 ∧ checksum [[1, 2], [3]] = 250 ∧
    checksum [[1, 2], [3], [250]] = 0 ∧ checksum [[255]] = 1 ∧
    checksum [[1, 2], [3], [250], [255]] = 1 ∧
    ∀ n : Nat, checksum (List.replicate n []) = 0 := by
  refine ⟨by decide, by decide, by decide, by decide, by decide, by decide,
    by decide, by decide, ?_⟩
  intro n
  have hflat : (List.replicate n ([] : List Nat)).flatten = [] := by
    induction n with
    | zero => rfl
    | succ n ih => simp [List.replicate_succ, ih]
  simp [checksum, hflat, sum8, wrappingNeg]

/-- C8: for every table type using the trait's provided default method,
is_empty returns true if and only if len returns 0; is_empty is derived
solely from len. -/
theorem is_empty_iff_len_eq_zero (τ μ ε : Type) (s : Sdt τ μ ε) (t : τ) :
    s.is_empty t = true ↔ s.len t = 0 := by
  simp [Sdt.is_empty]

/-- C9: checksum is invariant under any permutation of the bytes of its
input, because the accumulator is a commutative-associative wrapping sum. -/
theorem checksum_perm_invariant (F G : List (List Nat))
    (hp : F.flatten.Perm G.flatten) : checksum F = checksum G := by
  unfold checksum
  rw [sum8_eq_sum_mod, sum8_eq_sum_mod, hp.sum_eq]

/-- Witness for C9 at a concrete permutation: the bytes of [[1,2]] permute
into those of [[2],[1]] and the checksums agree. -/
theorem checksum_perm_invariant_witness :
    (List.flatten [[1, 2]]).Perm (List.flatten [[2], [1]]) ∧
    checksum [[1, 2]] = checksum [[2], [1]] :=
  ⟨by decide, checksum_perm_invariant [[1, 2]] [[2], [1]] (by decide)⟩

/-- C10: the derived Default value of SdtHeader encodes as 36 zero bytes;
its creator_id and creator_revision are zero, not the fixed creator
constants; and the default GenericAddressStructure encodes as 12 zero
bytes. -/
theorem default_values_all_zero :
    SdtHeader.default.asBytes = List.replicate 36 0 ∧
    (∀ i : Fin 4, SdtHeader.default.creator_id i = 0) ∧
    SdtHeader.default.creator_id ≠ FC_ACPI_CREATOR_ID ∧
    SdtHeader.default.creator_revision = 0 ∧
    SdtHeader.default.creator_revision ≠ FC_ACPI_CREATOR_REVISION ∧
    GenericAddressStructure.default.asBytes = List.replicate 12 0 := by
  refine ⟨by decide, by decide, ?_, rfl, by decide, by decide⟩
  intro hcontra
  have h0 := congrFun hcontra 0
  simp [SdtHeader.default, FC_ACPI_CREATOR_ID] at h0

end AcpiTables
